import Mathlib

/-
Verification of the filter-and-derived-metrics pipeline of the Kazungula
tourism dashboard (src/dashboard_tourism.py).

The pandas data frames are embedded as Lean lists of records.  Timestamps
are embedded as calendar dates ordered lexicographically.  Floating-point
values are embedded as exact rationals; the numpy/pandas NaN and inf
results of degenerate aggregations are embedded as `Option`/sentinel
constructors, as noted at each definition.  The seeded random noise and
the sine values produced by numpy are not reproducible in this embedding,
so the generator is parametrised over the noise and sine sequences; every
statement about generated data is quantified over those sequences.
-/

/-- A calendar date, as carried by the `date` column of the frames
(pandas timestamps compared via `.dt.date`). -/
structure Date where
  year : Nat
  month : Nat
  day : Nat
deriving DecidableEq, Repr

/-- Lexicographic order on dates, the comparison pandas performs on the
`date` column in the mask `(date >= start) & (date <= end)`. -/
def dateLe (a b : Date) : Bool :=
  decide (a.year < b.year) ||
    (decide (a.year = b.year) &&
      (decide (a.month < b.month) ||
        (decide (a.month = b.month) && decide (a.day ≤ b.day))))

lemma dateLe_trans {a b c : Date} (hab : dateLe a b = true)
    (hbc : dateLe b c = true) : dateLe a c = true := by
  simp only [dateLe, Bool.or_eq_true, Bool.and_eq_true, decide_eq_true_eq] at *
  omega

lemma dateLe_total (a b : Date) : dateLe a b = true ∨ dateLe b a = true := by
  simp only [dateLe, Bool.or_eq_true, Bool.and_eq_true, decide_eq_true_eq]
  omega

/-- One row of the arrivals frame built by `load_sample_data`, together
with the two derived columns (`month`, `month_name`) that the seasonality
tab adds later; those start out absent (`none`). -/
structure ArrivalRecord where
  date : Date
  total_arrivals : Int
  international : Int
  regional : Int
  zambia : Int
  zimbabwe : Int
  botswana : Int
  south_africa : Int
  europe : Int
  north_america : Int
  asia : Int
  month : Option Nat := none
  month_name : Option String := none
deriving DecidableEq, Repr

/-- Error kind of the date-range filter contract. -/
inductive FilterError where
  | invalidRange
deriving DecidableEq, Repr

/-- The boolean-mask filter on the arrivals frame:
`df_arrivals[(date >= start) & (date <= end)]`. -/
def filterRecords (records : List ArrivalRecord) (s e : Date) :
    List ArrivalRecord :=
  records.filter (fun r => dateLe s r.date && dateLe r.date e)

/-- The date-range filter as called by the dashboard.  The source performs
no validation of the bounds and never raises: it always returns the masked
frame.  The `Except` result type makes raising representable so that the
error-handling claims can be stated. -/
def filterByDate (records : List ArrivalRecord) (s e : Date) :
    Except FilterError (List ArrivalRecord) :=
  Except.ok (filterRecords records s e)

/-- Truncation toward zero, the conversion numpy `astype(int)` applies to
the float columns. -/
def truncInt (q : ℚ) : ℤ := if q < 0 then ⌈q⌉ else ⌊q⌋

lemma truncInt_eq_floor {q : ℚ} (h : 0 ≤ q) : truncInt q = ⌊q⌋ :=
  if_neg (not_lt.mpr h)

lemma le_truncInt_of_le {z : ℤ} {q : ℚ} (hz : 0 ≤ z) (h : (z : ℚ) ≤ q) :
    z ≤ truncInt q := by
  have hq : (0 : ℚ) ≤ q := le_trans (by exact_mod_cast hz) h
  rw [truncInt_eq_floor hq]
  exact Int.le_floor.mpr h

/-- Number of month-end dates in
`pd.date_range('2019-01-01', '2024-10-31', freq='ME')`. -/
def numMonths : Nat := 70

/-- Length of a calendar month, for the month-end timestamps the range
produces. -/
def daysInMonth (y m : Nat) : Nat :=
  if m = 2 then
    (if y % 4 = 0 && (y % 100 != 0 || y % 400 = 0) then 29 else 28)
  else if m = 4 || m = 6 || m = 9 || m = 11 then 30 else 31

/-- The i-th month-end date of the generated range, starting at
2019-01-31. -/
def sampleDate (i : Nat) : Date :=
  let y := 2019 + i / 12
  let m := i % 12 + 1
  ⟨y, m, daysInMonth y m⟩

/-- `np.linspace(0, 5000, 70)` at index i. -/
def trend (i : Nat) : ℚ := 5000 * i / 69

/-- The COVID disruption multiplier: 0.3 for dates between 2020-03-01 and
2021-12-31 inclusive, 1 otherwise, exactly the boolean mask of the
source. -/
def covidImpact (i : Nat) : ℚ :=
  if dateLe ⟨2020, 3, 1⟩ (sampleDate i) && dateLe (sampleDate i) ⟨2021, 12, 31⟩
  then 3/10 else 1

/-- The clamped arrivals value of month i:
`(base + trend + seasonal + noise) * covid_impact` floored at 1000 by
`np.maximum`.  The sine values (`sinSeq`, the array
`np.sin(np.linspace(0, 10*pi, 70))`) and the seeded normal noise are
parameters of the embedding. -/
def arrivalsClamped (sinSeq noise : Nat → ℚ) (i : Nat) : ℚ :=
  max ((15000 + trend i + 5000 * sinSeq i + noise i) * covidImpact i) 1000

/-- Row i of the arrivals frame built by `load_sample_data`: each column
is a fixed fraction of the clamped arrivals value, truncated to an
integer independently. -/
def arrivalRecordGen (sinSeq noise : Nat → ℚ) (i : Nat) : ArrivalRecord :=
  let a := arrivalsClamped sinSeq noise i
  { date := sampleDate i
    total_arrivals := truncInt a
    international := truncInt (a * (65/100))
    regional := truncInt (a * (35/100))
    zambia := truncInt (a * (15/100))
    zimbabwe := truncInt (a * (12/100))
    botswana := truncInt (a * (8/100))
    south_africa := truncInt (a * (25/100))
    europe := truncInt (a * (20/100))
    north_america := truncInt (a * (12/100))
    asia := truncInt (a * (8/100)) }

/-- The full generated arrivals frame. -/
def dfArrivals (sinSeq noise : Nat → ℚ) : List ArrivalRecord :=
  (List.range numMonths).map (arrivalRecordGen sinSeq noise)

/-- The arrivals formula exactly as the specification words it:
`max(1000, round(15000 + trend(i) + seasonal(i) + noise(i)) *
covid_multiplier(i))`, with the rounding applied before the covid
multiplier.  Kept separate from the source embedding so the two can be
compared. -/
def specArrivalsFormula (sinSeq noise : Nat → ℚ) (i : Nat) : ℚ :=
  max 1000
    (((round ((15000 : ℚ) + trend i + 5000 * sinSeq i + noise i) : ℤ) : ℚ)
      * covidImpact i)

/-- C1: for every record collection and every pair of dates with
start ≤ end, the filter returns (without error) exactly the records whose
date lies in the inclusive interval, and the returned subset is a sublist
of the source collection, hence preserves its chronological order. -/
theorem filterByDate_exact_and_ordered (records : List ArrivalRecord)
    (s e : Date) (_h : dateLe s e = true) :
    filterByDate records s e = Except.ok (filterRecords records s e) ∧
    (∀ r, r ∈ filterRecords records s e ↔
      r ∈ records ∧ dateLe s r.date = true ∧ dateLe r.date e = true) ∧
    (filterRecords records s e).Sublist records := by
  refine ⟨rfl, ?_, List.filter_sublist records⟩
  intro r
  simp [filterRecords, List.mem_filter]

/-- Witness instantiating the filter correctness theorem on a concrete
collection and range. -/
theorem filterByDate_exact_and_ordered_witness :
    filterByDate [] ⟨2019, 1, 31⟩ ⟨2019, 12, 31⟩ = Except.ok [] ∧
    ((filterRecords [] ⟨2019, 1, 31⟩ ⟨2019, 12, 31⟩).Sublist []) := by
  have h := filterByDate_exact_and_ordered [] ⟨2019, 1, 31⟩ ⟨2019, 12, 31⟩
    (by decide)
  exact ⟨h.1, h.2.2⟩

/-- C2 counterexample: the generated value is the truncation of the
clamped product, not `max(1000, round(...) * covid_multiplier)`.  At
month 0 (multiplier 1) with sine value 0 and noise 7/10, the source
yields trunc(15000.7) = 15000 while the claimed formula yields
round(15000.7) = 15001. -/
theorem arrivals_round_formula_counterexample :
    ((arrivalRecordGen (fun _ => 0) (fun _ => 7/10) 0).total_arrivals : ℚ) ≠
      specArrivalsFormula (fun _ => 0) (fun _ => 7/10) 0 := by
  have hcov : covidImpact 0 = 1 := by
    simp [covidImpact, sampleDate, daysInMonth, dateLe]
  have hval : (15000 + trend 0 + 5000 * (0 : ℚ) + 7/10) * covidImpact 0
      = 150007/10 := by
    rw [hcov, trend]; norm_num
  have hcode : (arrivalRecordGen (fun _ => 0) (fun _ => 7/10) 0).total_arrivals
      = 15000 := by
    show truncInt (arrivalsClamped (fun _ => 0) (fun _ => 7/10) 0) = 15000
    rw [arrivalsClamped, hval]
    have hmax : max (150007/10 : ℚ) 1000 = 150007/10 := by
      rw [max_eq_left]; norm_num
    rw [hmax, truncInt_eq_floor (by norm_num), Int.floor_eq_iff]
    norm_num
  have hspec : specArrivalsFormula (fun _ => 0) (fun _ => 7/10) 0
      = 15001 := by
    rw [specArrivalsFormula]
    have hr : round ((15000 : ℚ) + trend 0 + 5000 * 0 + 7/10) = 15001 := by
      have hx : (15000 : ℚ) + trend 0 + 5000 * 0 + 7/10 = 150007/10 := by
        rw [trend]; norm_num
      rw [hx, round_eq,
        show (150007/10 : ℚ) + 1/2 = 150012/10 by norm_num,
        Int.floor_eq_iff]
      norm_num
    rw [hr, hcov]
    norm_num
  rw [hcode, hspec]
  norm_num

/-- C2 amended: for every month index, every sine sequence and every
noise sequence, the generated total is the truncation toward zero of
`max((15000 + trend(i) + seasonal(i) + noise(i)) * covid_multiplier(i),
1000)` — the integer conversion comes last, after the multiplier and the
clamp — the covid multiplier is 3/10 exactly on the index window 14..35
(the months 2020-03 through 2021-12), and every generated total is at
least 1000. -/
theorem arrivals_trunc_after_multiplier (sinSeq noise : Nat → ℚ) (i : Nat)
    (hi : i < 70) :
    (arrivalRecordGen sinSeq noise i).total_arrivals =
      truncInt (max ((15000 + trend i + 5000 * sinSeq i + noise i)
        * covidImpact i) 1000) ∧
    covidImpact i = (if 14 ≤ i ∧ i ≤ 35 then 3/10 else 1) ∧
    1000 ≤ (arrivalRecordGen sinSeq noise i).total_arrivals := by
  refine ⟨rfl, ?_, ?_⟩
  · interval_cases i <;> rfl
  · show (1000 : ℤ) ≤ truncInt (arrivalsClamped sinSeq noise i)
    exact le_truncInt_of_le (by norm_num)
      (le_trans (by norm_num) (le_max_right _ (1000 : ℚ)))

/-- Witness instantiating the amended arrivals theorem inside the covid
window at month 14. -/
theorem arrivals_trunc_after_multiplier_witness :
    covidImpact 14 = 3/10 ∧
    1000 ≤ (arrivalRecordGen (fun _ => 0) (fun _ => 0) 14).total_arrivals := by
  have h := arrivals_trunc_after_multiplier (fun _ => 0) (fun _ => 0) 14
    (by decide)
  refine ⟨?_, h.2.2⟩
  rw [h.2.1]
  rfl

/-- C3: in every generated record the independently truncated 65% and
35% shares sum back to the total within one unit: the sum never exceeds
the total and falls short of it by at most 1. -/
theorem international_plus_regional_within_one (sinSeq noise : Nat → ℚ)
    (i : Nat) :
    (arrivalRecordGen sinSeq noise i).international
        + (arrivalRecordGen sinSeq noise i).regional
      ≤ (arrivalRecordGen sinSeq noise i).total_arrivals ∧
    (arrivalRecordGen sinSeq noise i).total_arrivals
      ≤ (arrivalRecordGen sinSeq noise i).international
        + (arrivalRecordGen sinSeq noise i).regional + 1 := by
  have ha : (0 : ℚ) ≤ arrivalsClamped sinSeq noise i :=
    le_trans (by norm_num) (le_max_right _ (1000 : ℚ))
  set a := arrivalsClamped sinSeq noise i with hadef
  have h65 : (0 : ℚ) ≤ a * (65/100) := by positivity
  have h35 : (0 : ℚ) ≤ a * (35/100) := by positivity
  have hsplit : a * (65/100) + a * (35/100) = a := by ring
  constructor
  · show truncInt (a * (65/100)) + truncInt (a * (35/100)) ≤ truncInt a
    rw [truncInt_eq_floor h65, truncInt_eq_floor h35, truncInt_eq_floor ha]
    have h1 := Int.floor_le (a * (65/100))
    have h2 := Int.floor_le (a * (35/100))
    apply Int.le_floor.mpr
    push_cast
    linarith
  · show truncInt a ≤ truncInt (a * (65/100)) + truncInt (a * (35/100)) + 1
    rw [truncInt_eq_floor h65, truncInt_eq_floor h35, truncInt_eq_floor ha]
    have h1 := Int.lt_floor_add_one (a * (65/100))
    have h2 := Int.lt_floor_add_one (a * (35/100))
    have : a < ((⌊a * (65/100)⌋ + ⌊a * (35/100)⌋ + 2 : ℤ) : ℚ) := by
      push_cast
      linarith [hsplit]
    have hlt : ⌊a⌋ < ⌊a * (65/100)⌋ + ⌊a * (35/100)⌋ + 2 :=
      Int.floor_lt.mpr (by push_cast at this ⊢; linarith)
    omega

/-- The calendar month names, in the reindex order of the seasonality
tab. -/
def monthNames : List String :=
  ["January", "February", "March", "April", "May", "June",
   "July", "August", "September", "October", "November", "December"]

/-- Name of calendar month m (1-based), as `strftime('%B')` renders it. -/
def monthName (m : Nat) : String := monthNames.getD (m - 1) ""

/-- The in-place column assignments of the seasonality tab:
`df_arrivals_filtered['month'] = df['date'].dt.month` and
`df_arrivals_filtered['month_name'] = df['date'].dt.strftime('%B')`.
The collection value after the assignment is the map below. -/
def addSeasonalityColumns (rows : List ArrivalRecord) : List ArrivalRecord :=
  rows.map (fun r =>
    { r with month := some r.date.month
             month_name := some (monthName r.date.month) })

/-- Projection onto the columns the generator originally created, used to
state which part of a frame a computation leaves intact. -/
def originalColumns (r : ArrivalRecord) :
    Date × Int × Int × Int × Int × Int × Int × Int × Int × Int × Int :=
  (r.date, r.total_arrivals, r.international, r.regional, r.zambia,
   r.zimbabwe, r.botswana, r.south_africa, r.europe, r.north_america, r.asia)

/-- A concrete arrivals row used by witnesses and counterexamples. -/
def sampleRecord (d : Date) (t : Int) : ArrivalRecord :=
  { date := d, total_arrivals := t, international := 0, regional := 0,
    zambia := 0, zimbabwe := 0, botswana := 0, south_africa := 0,
    europe := 0, north_america := 0, asia := 0 }

/-- C4 counterexample: the seasonality computation does not leave its
input collection unchanged — on a concrete one-row collection the
assignment of the derived columns produces a different collection value
(the `month` and `month_name` fields change from absent to present). -/
theorem metrics_never_mutate_counterexample :
    addSeasonalityColumns [sampleRecord ⟨2019, 1, 31⟩ 5] ≠
      [sampleRecord ⟨2019, 1, 31⟩ 5] := by
  decide

/-- C4 amended: the seasonality tab extends the filtered collection in
place with the two derived columns `month` and `month_name`, computed
from the `date` column; it preserves the record count, the order, and
every originally generated column unchanged. -/
theorem seasonality_prep_preserves_original_columns
    (rows : List ArrivalRecord) :
    (addSeasonalityColumns rows).length = rows.length ∧
    (addSeasonalityColumns rows).map originalColumns =
      rows.map originalColumns ∧
    ∀ r ∈ addSeasonalityColumns rows,
      r.month = some r.date.month ∧
      r.month_name = some (monthName r.date.month) := by
  refine ⟨List.length_map _ _, ?_, ?_⟩
  · rw [addSeasonalityColumns, List.map_map]
    rfl
  · intro r hr
    rw [addSeasonalityColumns, List.mem_map] at hr
    obtain ⟨r0, _, rfl⟩ := hr
    exact ⟨rfl, rfl⟩

/-- Sum of the `total_arrivals` column
(`df_arrivals_filtered['total_arrivals'].sum()`; the pandas sum of an
empty series is 0). -/
def totalArrivalsSum (rows : List ArrivalRecord) : Int :=
  (rows.map (fun r => r.total_arrivals)).sum

/-- Mean of the `total_arrivals` column
(`df_arrivals_filtered['total_arrivals'].mean()`).  The pandas mean of an
empty series is NaN, embedded here as `none`. -/
def meanTotalArrivals (rows : List ArrivalRecord) : Option ℚ :=
  if rows.length = 0 then none
  else some ((totalArrivalsSum rows : ℚ) / rows.length)

/-- C5 counterexample: on a collection filtered down to nothing the mean
is NaN (`none`), not 0 — the degenerate mean is not defined as 0 by the
code. -/
theorem empty_mean_counterexample :
    meanTotalArrivals
      (filterRecords [sampleRecord ⟨2019, 1, 31⟩ 5] ⟨2020, 1, 1⟩
        ⟨2020, 1, 2⟩) = none ∧
    meanTotalArrivals
      (filterRecords [sampleRecord ⟨2019, 1, 31⟩ 5] ⟨2020, 1, 1⟩
        ⟨2020, 1, 2⟩) ≠ some 0 := by
  refine ⟨rfl, ?_⟩
  intro hcontra
  rw [show meanTotalArrivals (filterRecords [sampleRecord ⟨2019, 1, 31⟩ 5]
    ⟨2020, 1, 1⟩ ⟨2020, 1, 2⟩) = none from rfl] at hcontra
  exact Option.noConfusion hcontra

/-- C5 amended: the sum of an empty filtered collection is 0 and its mean
is NaN (`none`, not 0); on a non-empty filtered collection the mean is
the sum divided by the record count.  Both aggregations are total — no
exception is raised on the degenerate input. -/
theorem totalAndAverage_behaviour :
    (∀ records (s e : Date), filterRecords records s e = [] →
      totalArrivalsSum (filterRecords records s e) = 0 ∧
      meanTotalArrivals (filterRecords records s e) = none) ∧
    (∀ records (s e : Date), filterRecords records s e ≠ [] →
      meanTotalArrivals (filterRecords records s e) =
        some ((totalArrivalsSum (filterRecords records s e) : ℚ) /
          (filterRecords records s e).length)) := by
  constructor
  · intro records s e h
    rw [h]
    exact ⟨rfl, rfl⟩
  · intro records s e h
    rw [meanTotalArrivals,
      if_neg (by simpa [List.length_eq_zero] using h)]

/-- Witness instantiating the sum/mean theorem on a concrete empty filter
result and a concrete non-empty one. -/
theorem totalAndAverage_behaviour_witness :
    (totalArrivalsSum (filterRecords [] ⟨2019, 1, 1⟩ ⟨2019, 12, 31⟩) = 0 ∧
     meanTotalArrivals (filterRecords [] ⟨2019, 1, 1⟩ ⟨2019, 12, 31⟩) =
       none) ∧
    meanTotalArrivals
        (filterRecords [sampleRecord ⟨2019, 6, 30⟩ 5] ⟨2019, 1, 1⟩
          ⟨2019, 12, 31⟩) =
      some ((totalArrivalsSum (filterRecords [sampleRecord ⟨2019, 6, 30⟩ 5]
          ⟨2019, 1, 1⟩ ⟨2019, 12, 31⟩) : ℚ) /
        (filterRecords [sampleRecord ⟨2019, 6, 30⟩ 5] ⟨2019, 1, 1⟩
          ⟨2019, 12, 31⟩).length) :=
  ⟨totalAndAverage_behaviour.1 [] ⟨2019, 1, 1⟩ ⟨2019, 12, 31⟩ rfl,
   totalAndAverage_behaviour.2 [sampleRecord ⟨2019, 6, 30⟩ 5]
     ⟨2019, 1, 1⟩ ⟨2019, 12, 31⟩ (by decide)⟩

/-- C6 counterexample: with start 2020-01-01 after end 2019-01-01 the
filter does not raise: it silently returns the (empty) masked subset. -/
theorem filter_invalid_range_counterexample :
    dateLe ⟨2020, 1, 1⟩ ⟨2019, 1, 1⟩ = false ∧
    filterByDate [sampleRecord ⟨2019, 6, 30⟩ 5] ⟨2020, 1, 1⟩ ⟨2019, 1, 1⟩ =
      Except.ok [] ∧
    filterByDate [sampleRecord ⟨2019, 6, 30⟩ 5] ⟨2020, 1, 1⟩ ⟨2019, 1, 1⟩ ≠
      Except.error FilterError.invalidRange := by
  refine ⟨rfl, rfl, ?_⟩
  intro hcontra
  rw [show filterByDate [sampleRecord ⟨2019, 6, 30⟩ 5] ⟨2020, 1, 1⟩
    ⟨2019, 1, 1⟩ = Except.ok [] from rfl] at hcontra
  exact Except.noConfusion hcontra

/-- C6 amended: the filter performs no range validation.  Whenever
start > end the mask excludes every record, so the call silently returns
the empty subset and never surfaces an error to the caller. -/
theorem filter_invalid_range_silent (records : List ArrivalRecord)
    (s e : Date) (h : dateLe s e = false) :
    filterByDate records s e = Except.ok [] ∧
    ∀ err, filterByDate records s e ≠ Except.error err := by
  have hempty : filterRecords records s e = [] := by
    rw [filterRecords, List.filter_eq_nil_iff]
    intro r _hr hb
    rw [Bool.and_eq_true] at hb
    rw [dateLe_trans hb.1 hb.2] at h
    exact Bool.noConfusion h
  constructor
  · rw [filterByDate, hempty]
  · intro err hcontra
    rw [filterByDate] at hcontra
    exact Except.noConfusion hcontra

/-- Witness instantiating the silent-filter theorem on a concrete
reversed range. -/
theorem filter_invalid_range_silent_witness :
    filterByDate [sampleRecord ⟨2019, 3, 31⟩ 7] ⟨2021, 5, 1⟩ ⟨2020, 5, 1⟩ =
      Except.ok [] :=
  (filter_invalid_range_silent [sampleRecord ⟨2019, 3, 31⟩ 7]
    ⟨2021, 5, 1⟩ ⟨2020, 5, 1⟩ (by decide)).1

/-- Result of the RevPAR computation.  The source divides a numpy float
by `total_capacity * len(df_revenue_filtered)`; a zero denominator yields
inf/nan without raising (numpy float division by zero is a warning, not
an exception), embedded here as the `notComputable` sentinel. -/
inductive RevparResult where
  | value (q : ℚ)
  | notComputable
deriving DecidableEq, Repr

/-- `revpar = total_accommodation_revenue / (total_capacity *
len(df_revenue_filtered))`. -/
def revpar (accomRevenue : ℚ) (totalRooms months : Nat) : RevparResult :=
  if totalRooms * months = 0 then RevparResult.notComputable
  else RevparResult.value (accomRevenue / ((totalRooms : ℚ) * (months : ℚ)))

/-- C8: with positive rooms and a positive period the RevPAR is the
revenue divided by rooms times months — in particular 1,000,000 over
1000 rooms and 10 months gives 100 — and with zero rooms the result is
the non-crash `notComputable` sentinel. -/
theorem revpar_spec :
    (∀ (rev : ℚ) (rooms months : Nat), 0 < rooms → 0 < months →
      revpar rev rooms months =
        RevparResult.value (rev / ((rooms : ℚ) * (months : ℚ)))) ∧
    revpar 1000000 1000 10 = RevparResult.value 100 ∧
    (∀ (rev : ℚ) (months : Nat),
      revpar rev 0 months = RevparResult.notComputable) := by
  refine ⟨?_, ?_, ?_⟩
  · intro rev rooms months h1 h2
    rw [revpar, if_neg (by positivity)]
  · rw [revpar, if_neg (by norm_num)]
    norm_num
  · intro rev months
    rw [revpar, if_pos (by omega)]

/-- Witness instantiating the RevPAR theorem at concrete positive
inputs. -/
theorem revpar_spec_witness :
    revpar 500 2 5 = RevparResult.value (500 / ((2 : ℚ) * (5 : ℚ))) :=
  revpar_spec.1 500 2 5 (by omega) (by omega)

/-- `rooms_estimate = investment / 40000` (float division in the
source). -/
def roomsEstimate (investment : ℚ) : ℚ := investment / 40000

/-- `annual_revenue = rooms_estimate * 365 * (expected_occupancy/100) *
avg_rate`. -/
def annualRevenue (investment occupancy rate : ℚ) : ℚ :=
  roomsEstimate investment * 365 * (occupancy / 100) * rate

/-- `operating_costs = annual_revenue * 0.65`. -/
def operatingCosts (investment occupancy rate : ℚ) : ℚ :=
  annualRevenue investment occupancy rate * (65/100)

/-- `net_profit = annual_revenue - operating_costs`. -/
def netProfit (investment occupancy rate : ℚ) : ℚ :=
  annualRevenue investment occupancy rate
    - operatingCosts investment occupancy rate

/-- `roi_years = investment / net_profit if net_profit > 0 else 0`. -/
def roiYears (investment occupancy rate : ℚ) : ℚ :=
  if 0 < netProfit investment occupancy rate
  then investment / netProfit investment occupancy rate else 0

/-- `roi_percentage = (net_profit / investment) * 100`. -/
def roiPercentage (investment occupancy rate : ℚ) : ℚ :=
  netProfit investment occupancy rate / investment * 100

/-- C9 counterexample: at investment 2,000,000, occupancy 65 and rate
150 the code computes annual revenue 50 * 365 * (65/100) * 150 =
1,779,375, not the 1,778,625 the claim states, and net profit
622,781.25 (= 2491125/4), not 622,518.75 (= 2490075/4). -/
theorem roi_example_counterexample :
    annualRevenue 2000000 65 150 = 1779375 ∧
    (1779375 : ℚ) ≠ 1778625 ∧
    annualRevenue 2000000 65 150 ≠ 1778625 ∧
    netProfit 2000000 65 150 ≠ 2490075/4 := by
  norm_num [annualRevenue, roomsEstimate, netProfit, operatingCosts]

/-- C9 amended: with investment 2,000,000, occupancy 65 and rate 150 and
the fixed constants 0.65 and 40000 the calculator yields rooms = 50,
annual revenue = 1,779,375, net profit = 622,781.25, payback =
2,000,000 / 622,781.25 ≈ 3.21 years (within [3.21, 3.22)) and annual
ROI ≈ 31.1% (within [31.1, 31.2)), following the stated formulas. -/
theorem roi_example_values :
    roomsEstimate 2000000 = 50 ∧
    annualRevenue 2000000 65 150 = 1779375 ∧
    netProfit 2000000 65 150 = 2491125/4 ∧
    roiYears 2000000 65 150 = 2000000 / (2491125/4) ∧
    (321/100 : ℚ) ≤ roiYears 2000000 65 150 ∧
    roiYears 2000000 65 150 < 322/100 ∧
    roiPercentage 2000000 65 150 = 2491125/4 / 2000000 * 100 ∧
    (311/10 : ℚ) ≤ roiPercentage 2000000 65 150 ∧
    roiPercentage 2000000 65 150 < 312/10 := by
  have hnp : netProfit 2000000 65 150 = 2491125/4 := by
    norm_num [netProfit, operatingCosts, annualRevenue, roomsEstimate]
  have hyears : roiYears 2000000 65 150 = 2000000 / (2491125/4 : ℚ) := by
    rw [roiYears, hnp, if_pos (by norm_num)]
  have hpct : roiPercentage 2000000 65 150 = 2491125/4 / 2000000 * 100 := by
    rw [roiPercentage, hnp]
  refine ⟨by norm_num [roomsEstimate], ?_, hnp, hyears, ?_, ?_, hpct, ?_, ?_⟩
  · norm_num [annualRevenue, roomsEstimate]
  · rw [hyears]; norm_num
  · rw [hyears]; norm_num
  · rw [hpct]; norm_num
  · rw [hpct]; norm_num

/-- One row of the static accommodation reference table. -/
structure AccommodationRecord where
  facility_type : String
  number_of_facilities : Nat
  total_rooms : Nat
  average_occupancy_rate : Nat
  average_rate_usd : Nat
deriving DecidableEq, Repr

/-- The fixed table returned by `load_accommodation_data`. -/
def loadAccommodationData : List AccommodationRecord :=
  [⟨"Hotels", 12, 450, 68, 120⟩,
   ⟨"Lodges", 18, 280, 72, 180⟩,
   ⟨"Guest Houses", 25, 180, 55, 45⟩,
   ⟨"Camping Sites", 8, 150, 45, 25⟩,
   ⟨"Backpackers", 6, 80, 62, 30⟩]

/-- `total_capacity = df_accommodation['total_rooms'].sum()`. -/
def totalRoomCapacity : Nat :=
  (loadAccommodationData.map (fun r => r.total_rooms)).sum

/-- C10: the accommodation reference is the fixed five-row table whose
room counts sum to 1140 > 0, so the RevPAR denominator fed from it is
always 1140 and the zero-rooms case of `revpar` is unreachable for any
positive period length. -/
theorem accommodation_rooms_fixed :
    loadAccommodationData.map (fun r => r.facility_type) =
      ["Hotels", "Lodges", "Guest Houses", "Camping Sites", "Backpackers"] ∧
    loadAccommodationData.length = 5 ∧
    totalRoomCapacity = 1140 ∧
    0 < totalRoomCapacity ∧
    ∀ (rev : ℚ) (months : Nat), 0 < months →
      revpar rev totalRoomCapacity months =
        RevparResult.value (rev / ((1140 : ℚ) * (months : ℚ))) := by
  refine ⟨rfl, rfl, rfl, by decide, ?_⟩
  intro rev months h
  rw [show totalRoomCapacity = 1140 from rfl, revpar,
    if_neg (by omega)]
  norm_num

/-- Witness instantiating the accommodation-table theorem at a concrete
revenue and period. -/
theorem accommodation_rooms_fixed_witness :
    revpar 100 totalRoomCapacity 2 =
      RevparResult.value (100 / ((1140 : ℚ) * (2 : ℚ))) :=
  accommodation_rooms_fixed.2.2.2.2 100 2 (by omega)

/-- Error kind of the seasonality aggregate: pandas `idxmax`/`idxmin` on
an all-NaN reindexed series raises (no month group exists); the
specification calls that condition `InsufficientDataError`. -/
inductive MetricsError where
  | insufficientData
deriving DecidableEq, Repr

/-- The rows of one month-name group:
`df_arrivals_filtered.groupby('month_name')` restricted to calendar
month m (1-based). -/
def monthGroup (rows : List ArrivalRecord) (m : Nat) : List ArrivalRecord :=
  rows.filter (fun r => r.date.month == m)

/-- Per-month mean of `total_arrivals` across the group; `none` embeds
the NaN a reindexed absent month carries. -/
def monthMean (rows : List ArrivalRecord) (m : Nat) : Option ℚ :=
  if (monthGroup rows m).length = 0 then none
  else some
    ((((monthGroup rows m).map (fun r => r.total_arrivals)).sum : ℚ) /
      (monthGroup rows m).length)

/-- The `monthly_avg` series after `.reindex(['January', ...])`: twelve
entries in calendar order, absent months carrying NaN. -/
def seasonTable (rows : List ArrivalRecord) : List (String × Option ℚ) :=
  (List.range 12).map (fun j => (monthName (j + 1), monthMean rows (j + 1)))

/-- One step of the NaN-skipping first-occurrence selection pandas
`idxmax`/`idxmin` perform, parametrised by the strict comparison that
makes a later entry replace the current best. -/
def pickBy (c : ℚ → ℚ → Bool) (acc : Option (String × ℚ))
    (p : String × Option ℚ) : Option (String × ℚ) :=
  match p.2 with
  | none => acc
  | some v =>
    match acc with
    | none => some (p.1, v)
    | some q => if c q.2 v then some (p.1, v) else some q

/-- Comparison of `idxmax`: replace only on strictly larger, so ties keep
the earliest month. -/
def maxCmp : ℚ → ℚ → Bool := fun a b => decide (a < b)

/-- Comparison of `idxmin`: replace only on strictly smaller. -/
def minCmp : ℚ → ℚ → Bool := fun a b => decide (b < a)

/-- `monthly_avg.idxmax()` with its value, `none` when every entry is
NaN. -/
def idxmaxOpt (l : List (String × Option ℚ)) : Option (String × ℚ) :=
  l.foldl (pickBy maxCmp) none

/-- `monthly_avg.idxmin()` with its value, `none` when every entry is
NaN. -/
def idxminOpt (l : List (String × Option ℚ)) : Option (String × ℚ) :=
  l.foldl (pickBy minCmp) none

/-- The seasonality aggregate: peak month and mean, low month and mean,
and the seasonality index `monthly_avg.max() / monthly_avg.min()`. -/
def peakAndLowSeason (rows : List ArrivalRecord) :
    Except MetricsError (String × ℚ × String × ℚ × ℚ) :=
  match idxmaxOpt (seasonTable rows), idxminOpt (seasonTable rows) with
  | some p, some l => Except.ok (p.1, p.2, l.1, l.2, p.2 / l.2)
  | _, _ => Except.error MetricsError.insufficientData

lemma foldl_pickBy_acc_R {c : ℚ → ℚ → Bool} {R : ℚ → ℚ → Prop}
    (hc : ∀ x y, (c x y = true → R x y) ∧ (c x y = false → R y x))
    (htrans : ∀ x y z, R x y → R y z → R x z) (hrefl : ∀ x, R x x) :
    ∀ (l : List (String × Option ℚ)) (q r : String × ℚ),
      List.foldl (pickBy c) (some q) l = some r → R q.2 r.2 := by
  intro l
  induction l with
  | nil =>
    intro q r h
    rw [List.foldl_nil] at h
    obtain rfl : q = r := Option.some.inj h
    exact hrefl q.2
  | cons p t ih =>
    intro q r h
    rw [List.foldl_cons] at h
    obtain ⟨nm, ov⟩ := p
    cases ov with
    | none => exact ih q r h
    | some v =>
      by_cases hcv : c q.2 v = true
      · rw [show pickBy c (some q) (nm, some v) =
            if c q.2 v then some (nm, v) else some q from rfl,
          if_pos hcv] at h
        exact htrans _ _ _ ((hc q.2 v).1 hcv) (ih (nm, v) r h)
      · rw [show pickBy c (some q) (nm, some v) =
            if c q.2 v then some (nm, v) else some q from rfl,
          if_neg hcv] at h
        exact ih q r h

lemma foldl_pickBy_total {c : ℚ → ℚ → Bool} :
    ∀ (l : List (String × Option ℚ)) (q : String × ℚ),
      ∃ r, List.foldl (pickBy c) (some q) l = some r := by
  intro l
  induction l with
  | nil => intro q; exact ⟨q, rfl⟩
  | cons p t ih =>
    intro q
    rw [List.foldl_cons]
    obtain ⟨nm, ov⟩ := p
    cases ov with
    | none => exact ih q
    | some v =>
      by_cases hcv : c q.2 v = true
      · rw [show pickBy c (some q) (nm, some v) =
            if c q.2 v then some (nm, v) else some q from rfl, if_pos hcv]
        exact ih (nm, v)
      · rw [show pickBy c (some q) (nm, some v) =
            if c q.2 v then some (nm, v) else some q from rfl, if_neg hcv]
        exact ih q

lemma foldl_pickBy_some_of_mem {c : ℚ → ℚ → Bool} :
    ∀ (l : List (String × Option ℚ)) (acc : Option (String × ℚ)),
      (∃ nm w, (nm, some w) ∈ l) →
      ∃ r, List.foldl (pickBy c) acc l = some r := by
  intro l
  induction l with
  | nil =>
    rintro acc ⟨nm, w, hmem⟩
    cases hmem
  | cons p t ih =>
    rintro acc ⟨nm, w, hmem⟩
    rw [List.foldl_cons]
    rcases List.mem_cons.mp hmem with heq | hmem'
    · rw [← heq]
      cases acc with
      | none => exact foldl_pickBy_total t (nm, w)
      | some q =>
        by_cases hcv : c q.2 w = true
        · rw [show pickBy c (some q) (nm, some w) =
              if c q.2 w then some (nm, w) else some q from rfl, if_pos hcv]
          exact foldl_pickBy_total t (nm, w)
        · rw [show pickBy c (some q) (nm, some w) =
              if c q.2 w then some (nm, w) else some q from rfl, if_neg hcv]
          exact foldl_pickBy_total t q
    · exact ih _ ⟨nm, w, hmem'⟩

lemma foldl_pickBy_attained {c : ℚ → ℚ → Bool} :
    ∀ (l : List (String × Option ℚ)) (acc : Option (String × ℚ))
      (r : String × ℚ),
      List.foldl (pickBy c) acc l = some r →
      acc = some r ∨ (r.1, some r.2) ∈ l := by
  intro l
  induction l with
  | nil => intro acc r h; exact Or.inl h
  | cons p t ih =>
    intro acc r h
    rw [List.foldl_cons] at h
    rcases ih _ _ h with hacc | hmem
    · obtain ⟨nm, ov⟩ := p
      cases ov with
      | none => exact Or.inl hacc
      | some v =>
        cases acc with
        | none =>
          have hr : (nm, v) = r := Option.some.inj hacc
          right
          rw [List.mem_cons]
          left
          rw [← hr]
        | some q =>
          by_cases hcv : c q.2 v = true
          · rw [show pickBy c (some q) (nm, some v) =
                if c q.2 v then some (nm, v) else some q from rfl,
              if_pos hcv] at hacc
            have hr : (nm, v) = r := Option.some.inj hacc
            right
            rw [List.mem_cons]
            left
            rw [← hr]
          · rw [show pickBy c (some q) (nm, some v) =
                if c q.2 v then some (nm, v) else some q from rfl,
              if_neg hcv] at hacc
            exact Or.inl hacc
    · exact Or.inr (List.mem_cons_of_mem p hmem)

lemma foldl_pickBy_bound {c : ℚ → ℚ → Bool} {R : ℚ → ℚ → Prop}
    (hc : ∀ x y, (c x y = true → R x y) ∧ (c x y = false → R y x))
    (htrans : ∀ x y z, R x y → R y z → R x z) (hrefl : ∀ x, R x x) :
    ∀ (l : List (String × Option ℚ)) (acc : Option (String × ℚ))
      (r : String × ℚ),
      List.foldl (pickBy c) acc l = some r →
      ∀ nm w, (nm, some w) ∈ l → R w r.2 := by
  intro l
  induction l with
  | nil => intro acc r _ nm w hmem; cases hmem
  | cons p t ih =>
    intro acc r h nm w hmem
    rw [List.foldl_cons] at h
    rcases List.mem_cons.mp hmem with heq | hmem'
    · rw [← heq] at h
      cases acc with
      | none => exact foldl_pickBy_acc_R hc htrans hrefl t (nm, w) r h
      | some q =>
        by_cases hcv : c q.2 w = true
        · rw [show pickBy c (some q) (nm, some w) =
              if c q.2 w then some (nm, w) else some q from rfl,
            if_pos hcv] at h
          exact foldl_pickBy_acc_R hc htrans hrefl t (nm, w) r h
        · have hfalse : c q.2 w = false := by simpa using hcv
          rw [show pickBy c (some q) (nm, some w) =
              if c q.2 w then some (nm, w) else some q from rfl,
            if_neg hcv] at h
          exact htrans _ _ _ ((hc q.2 w).2 hfalse)
            (foldl_pickBy_acc_R hc htrans hrefl t q r h)
    · exact ih _ _ h nm w hmem'

lemma maxCmp_le : ∀ x y : ℚ,
    (maxCmp x y = true → x ≤ y) ∧ (maxCmp x y = false → y ≤ x) := by
  intro x y
  constructor
  · intro h; exact le_of_lt (by simpa [maxCmp] using h)
  · intro h; exact le_of_not_lt (by simpa [maxCmp] using h)

lemma minCmp_le : ∀ x y : ℚ,
    (minCmp x y = true → y ≤ x) ∧ (minCmp x y = false → x ≤ y) := by
  intro x y
  constructor
  · intro h; exact le_of_lt (by simpa [minCmp] using h)
  · intro h; exact le_of_not_lt (by simpa [minCmp] using h)

lemma monthMean_some_of_mem {rows : List ArrivalRecord} {r : ArrivalRecord}
    (hr : r ∈ rows) : ∃ w, monthMean rows r.date.month = some w := by
  have hmem : r ∈ monthGroup rows r.date.month := by
    rw [monthGroup, List.mem_filter]
    exact ⟨hr, by simp⟩
  have hlen : ¬(monthGroup rows r.date.month).length = 0 := by
    intro h0
    rw [List.length_eq_zero] at h0
    rw [h0] at hmem
    cases hmem
  exact ⟨_, by rw [monthMean, if_neg hlen]⟩

lemma seasonTable_mem_iff {rows : List ArrivalRecord} {nm : String}
    {ov : Option ℚ} :
    (nm, ov) ∈ seasonTable rows ↔
      ∃ m, 1 ≤ m ∧ m ≤ 12 ∧ nm = monthName m ∧ ov = monthMean rows m := by
  rw [seasonTable, List.mem_map]
  constructor
  · rintro ⟨j, hj, hfj⟩
    rw [List.mem_range] at hj
    refine ⟨j + 1, by omega, by omega, ?_, ?_⟩
    · exact (congrArg Prod.fst hfj).symm
    · exact (congrArg Prod.snd hfj).symm
  · rintro ⟨m, h1, h2, hnm, hov⟩
    refine ⟨m - 1, ?_, ?_⟩
    · rw [List.mem_range]; omega
    · have hm : m - 1 + 1 = m := by omega
      rw [hm, hnm, hov]

/-- C7: the seasonality aggregate signals `insufficientData` on the empty
collection; on any non-empty collection of calendar-dated records it
returns a peak month and a low month that are attained per-month means of
`total_arrivals`, every month group mean lies between the low and the
peak mean, and the seasonality index is the peak mean divided by the low
mean. -/
theorem peakAndLowSeason_spec :
    peakAndLowSeason [] = Except.error MetricsError.insufficientData ∧
    ∀ rows : List ArrivalRecord, rows ≠ [] →
      (∀ r ∈ rows, 1 ≤ r.date.month ∧ r.date.month ≤ 12) →
      ∃ pm pv lm lv,
        peakAndLowSeason rows = Except.ok (pm, pv, lm, lv, pv / lv) ∧
        (∃ m, 1 ≤ m ∧ m ≤ 12 ∧ pm = monthName m ∧
          monthMean rows m = some pv) ∧
        (∃ m, 1 ≤ m ∧ m ≤ 12 ∧ lm = monthName m ∧
          monthMean rows m = some lv) ∧
        ∀ m v, 1 ≤ m → m ≤ 12 → monthMean rows m = some v →
          lv ≤ v ∧ v ≤ pv := by
  constructor
  · rfl
  · intro rows hne hvalid
    obtain ⟨r0, hr0⟩ : ∃ r, r ∈ rows := by
      cases rows with
      | nil => exact absurd rfl hne
      | cons a t => exact ⟨a, List.mem_cons_self a t⟩
    obtain ⟨w0, hw0⟩ := monthMean_some_of_mem hr0
    have hm0 := hvalid r0 hr0
    have hentry : (monthName r0.date.month, some w0) ∈ seasonTable rows := by
      rw [seasonTable_mem_iff]
      exact ⟨r0.date.month, hm0.1, hm0.2, rfl, hw0.symm⟩
    obtain ⟨pr, hpr⟩ := foldl_pickBy_some_of_mem (c := maxCmp)
      (seasonTable rows) none ⟨_, _, hentry⟩
    obtain ⟨lr, hlr⟩ := foldl_pickBy_some_of_mem (c := minCmp)
      (seasonTable rows) none ⟨_, _, hentry⟩
    refine ⟨pr.1, pr.2, lr.1, lr.2, ?_, ?_, ?_, ?_⟩
    · rw [peakAndLowSeason,
        show idxmaxOpt (seasonTable rows) = some pr from hpr,
        show idxminOpt (seasonTable rows) = some lr from hlr]
    · rcases foldl_pickBy_attained (c := maxCmp) (seasonTable rows) none pr
        hpr with hacc | hmem
      · cases hacc
      · rw [seasonTable_mem_iff] at hmem
        obtain ⟨m, h1, h2, hnm, hov⟩ := hmem
        exact ⟨m, h1, h2, hnm, hov.symm⟩
    · rcases foldl_pickBy_attained (c := minCmp) (seasonTable rows) none lr
        hlr with hacc | hmem
      · cases hacc
      · rw [seasonTable_mem_iff] at hmem
        obtain ⟨m, h1, h2, hnm, hov⟩ := hmem
        exact ⟨m, h1, h2, hnm, hov.symm⟩
    · intro m v h1 h2 hv
      have hmem : (monthName m, some v) ∈ seasonTable rows := by
        rw [seasonTable_mem_iff]
        exact ⟨m, h1, h2, rfl, hv.symm⟩
      constructor
      · exact foldl_pickBy_bound (c := minCmp) (R := fun x y => y ≤ x)
          minCmp_le (fun x y z hxy hyz => le_trans hyz hxy)
          (fun x => le_refl x) (seasonTable rows) none lr hlr
          (monthName m) v hmem
      · exact foldl_pickBy_bound (c := maxCmp) (R := fun x y => x ≤ y)
          maxCmp_le (fun x y z hxy hyz => le_trans hxy hyz)
          (fun x => le_refl x) (seasonTable rows) none pr hpr
          (monthName m) v hmem

/-- Witness instantiating the seasonality theorem on a concrete one-row
collection. -/
theorem peakAndLowSeason_spec_witness :
    ∃ pm pv lm lv,
      peakAndLowSeason [sampleRecord ⟨2019, 5, 31⟩ 9] =
        Except.ok (pm, pv, lm, lv, pv / lv) ∧
      (∃ m, 1 ≤ m ∧ m ≤ 12 ∧ pm = monthName m ∧
        monthMean [sampleRecord ⟨2019, 5, 31⟩ 9] m = some pv) ∧
      (∃ m, 1 ≤ m ∧ m ≤ 12 ∧ lm = monthName m ∧
        monthMean [sampleRecord ⟨2019, 5, 31⟩ 9] m = some lv) ∧
      ∀ m v, 1 ≤ m → m ≤ 12 →
        monthMean [sampleRecord ⟨2019, 5, 31⟩ 9] m = some v →
        lv ≤ v ∧ v ≤ pv :=
  peakAndLowSeason_spec.2 [sampleRecord ⟨2019, 5, 31⟩ 9] (by decide)
    (by decide)
